import Mathlib

/-!
Verification of the vue-router-plugin-system lifecycle coordinator.

This file shallowly embeds the plugin-system core of the repository:
the per-router internals record (src/internals.ts), the attachment
override (src/override-router-install.ts), the prepare step
(src/prepare-install.ts), the extension installer (src/setup-plugin.ts),
the plugin-aware router construction (src/create-router.ts), and the
dual-mode wrappers (src/with-install.ts, src/as-vue-plugin.ts).

Plugin bodies are modelled as lists of registration actions (the only
calls a plugin can make against the capability context that this
coordinator observes), and every externally observable invocation is
recorded in an event trace, so that ordering claims become equations
over traces.
-/

namespace VueRouterPluginSystem

/-- A registration action a plugin body may perform against the
capability context it receives (src/plugin.ts): schedule a callback to
run with the app (runWithApp / runWithAppContext), or register an
uninstall callback (onUninstall).  Callbacks are identified by numeric
ids; their own behaviour is opaque to the coordinator. -/
inductive PluginAction where
  | runWithApp (h : Nat)
  | onUninstall (h : Nat)
deriving DecidableEq

/-- Which install method has been attached to a plugin object:
`dualMode` is the method attached by withInstall (accepting a router or
an app), `appOnly` the one attached by asVuePlugin (app only). -/
inductive InstallImpl where
  | dualMode
  | appOnly
deriving DecidableEq

/-- A plugin object.  `ref` models JavaScript object identity (an
Object.assign mutation keeps the same `ref`); `actions` is the body, a
sequence of registrations against the context; `withInstallTag` is the
hidden WITH_INSTALL marker of src/with-install.ts; `install` records
which install method, if any, has been attached to the object. -/
structure RouterPlugin where
  ref : Nat
  actions : List PluginAction
  withInstallTag : Bool
  install : Option InstallImpl
deriving DecidableEq

/-- Externally observable events, in the order they happen:
a plugin body runs; the app handle is recorded into the internals
record; the unmount interceptor is installed onto an app (wrapping its
native unmount); the native vue-router install runs with an app; a
scheduled (scope- and context-wrapping) runWithApp callback is invoked
with an app; the shared effect scope is stopped; an uninstall callback
is invoked; the native app unmount runs. -/
inductive Event where
  | pluginBody (p : Nat)
  | recordApp (a : Nat)
  | wrapUnmount (a : Nat)
  | nativeInstall (a : Nat)
  | runHandler (h : Nat) (a : Nat)
  | scopeStop
  | uninstall (h : Nat)
  | nativeUnmount (a : Nat)
deriving DecidableEq

/-- The per-router internals record of src/internals.ts:
`isInstallOverridden` guards the install override, `isPrepared` guards
the prepare step, `app` is the recorded app handle, `scopeStopped`
tells whether the shared effect scope has been stopped, and the two
lists are the uninstall and pending runWithApp handler queues. -/
structure Internals where
  isInstallOverridden : Bool
  isPrepared : Bool
  app : Option Nat
  scopeStopped : Bool
  uninstallHandlers : List Nat
  runWithAppHandlers : List Nat
deriving DecidableEq

/-- The value of the mutable `router.install` slot: either the native
vue-router install, or the wrapper that overrideRouterInstall put
around some inner install function. -/
inductive InstallFn where
  | native
  | wrapped (inner : InstallFn)
deriving DecidableEq

/-- The value of the mutable `app.unmount` slot: either the native
unmount, or the interceptor that prepareInstall put around some inner
unmount function. -/
inductive UnmountFn where
  | native
  | wrapped (inner : UnmountFn)
deriving DecidableEq

/-- Per-app mutable state: the current `app.unmount` slot, and whether
the native vue-router install has run on this app (which is what sets
`app.config.globalProperties.$router`). -/
structure AppRec where
  unmountFn : UnmountFn
  hasRouter : Bool
deriving DecidableEq

/-- The whole mutable world for one router: its internals record, its
`router.install` slot, the per-app records keyed by app id, and the
event trace accumulated so far. -/
structure World where
  internals : Internals
  installFn : InstallFn
  apps : List (Nat × AppRec)
  trace : List Event
deriving DecidableEq

/-- Association-list lookup of an app record by app id. -/
def lookupApp : List (Nat × AppRec) → Nat → Option AppRec
  | [], _ => none
  | (k, v) :: rest, a => if k = a then some v else lookupApp rest a

/-- Association-list update (or insert) of an app record. -/
def updApps : List (Nat × AppRec) → Nat → AppRec → List (Nat × AppRec)
  | [], a, r => [(a, r)]
  | (k, v) :: rest, a, r =>
    if k = a then (k, r) :: rest else (k, v) :: updApps rest a r

/-- The app record for id `a`, defaulting to a fresh app (native
unmount, no router installed yet). -/
def getApp (w : World) (a : Nat) : AppRec :=
  (lookupApp w.apps a).getD ⟨UnmountFn.native, false⟩

/-- A world for a freshly created router: the internals record has just
been lazily created by getInternals (src/internals.ts) with both flags
false, no app, a fresh running effect scope and empty handler lists;
`router.install` is still the native one. -/
def World.init : World :=
  ⟨⟨false, false, none, false, [], []⟩, InstallFn.native, [], []⟩

/-- src/prepare-install.ts, prepareInstall: if already prepared, do
nothing; otherwise set the prepared flag, record the app handle into
the internals record, and replace `app.unmount` with the interceptor
that closes over the internals and the previous unmount. -/
def prepareInstall (a : Nat) (w : World) : World :=
  if w.internals.isPrepared then w
  else
    let rec0 := getApp w a
    { internals := { w.internals with isPrepared := true, app := some a },
      installFn := w.installFn,
      apps := updApps w.apps a { rec0 with unmountFn := UnmountFn.wrapped rec0.unmountFn },
      trace := w.trace ++ [Event.recordApp a, Event.wrapUnmount a] }

/-- One registration action performed by a plugin body against the
context built in src/setup-plugin.ts: onUninstall pushes the handler
onto the uninstall list; runWithApp (runWithAppContext) wraps the
handler (scope + app context) and either invokes it at once with the
recorded app, when one is recorded, or queues it. -/
def runAction (w : World) : PluginAction → World
  | PluginAction.runWithApp h =>
    match w.internals.app with
    | some a => { w with trace := w.trace ++ [Event.runHandler h a] }
    | none =>
      { w with internals :=
          { w.internals with
            runWithAppHandlers := w.internals.runWithAppHandlers ++ [h] } }
  | PluginAction.onUninstall h =>
    { w with internals :=
        { w.internals with
          uninstallHandlers := w.internals.uninstallHandlers ++ [h] } }

/-- src/setup-plugin.ts, setupPlugin: run one plugin body, inside the
shared effect scope, against a fresh context; the body performs its
registration actions in order. -/
def setupPlugin (p : RouterPlugin) (w : World) : World :=
  p.actions.foldl runAction
    { w with trace := w.trace ++ [Event.pluginBody p.ref] }

/-- src/override-router-install.ts, overrideRouterInstall: when the
override flag is still false, set it and wrap the current
`router.install` slot; otherwise do nothing. -/
def overrideRouterInstall (w : World) : World :=
  if w.internals.isInstallOverridden then w
  else
    { w with
      internals := { w.internals with isInstallOverridden := true },
      installFn := InstallFn.wrapped w.installFn }

/-- The native vue-router install: registers the router on the app
(sets `app.config.globalProperties.$router`). -/
def nativeInstallStep (a : Nat) (w : World) : World :=
  let rec0 := getApp w a
  { w with
    apps := updApps w.apps a { rec0 with hasRouter := true },
    trace := w.trace ++ [Event.nativeInstall a] }

/-- Interpretation of an install-slot value applied to an app id.  The
wrapper of src/override-router-install.ts first runs prepareInstall,
then the inner install, then flushes the queued runWithApp handlers in
order and clears the queue. -/
def runInstallFn : InstallFn → Nat → World → World
  | InstallFn.native, a, w => nativeInstallStep a w
  | InstallFn.wrapped inner, a, w =>
    let w1 := runInstallFn inner a (prepareInstall a w)
    { w1 with
      internals := { w1.internals with runWithAppHandlers := [] },
      trace := w1.trace ++
        w1.internals.runWithAppHandlers.map (fun h => Event.runHandler h a) }

/-- Calling the current `router.install` slot with an app id, as
`app.use(router)` does. -/
def callInstall (a : Nat) (w : World) : World :=
  runInstallFn w.installFn a w

/-- Interpretation of an unmount-slot value for app id `a`.  The
interceptor of src/prepare-install.ts first stops the shared effect
scope, then invokes the uninstall handlers in registration order, then
clears the uninstall list and the pending runWithApp list, and finally
calls the unmount it had wrapped. -/
def runUnmountFn : UnmountFn → Nat → World → World
  | UnmountFn.native, a, w => { w with trace := w.trace ++ [Event.nativeUnmount a] }
  | UnmountFn.wrapped inner, a, w =>
    let w1 : World :=
      { w with
        internals := { w.internals with scopeStopped := true },
        trace := w.trace ++ [Event.scopeStop] }
    let w2 : World :=
      { w1 with
        internals :=
          { w1.internals with uninstallHandlers := [], runWithAppHandlers := [] },
        trace := w1.trace ++ w1.internals.uninstallHandlers.map Event.uninstall }
    runUnmountFn inner a w2

/-- Calling the current `app.unmount` slot of app `a`. -/
def callUnmount (a : Nat) (w : World) : World :=
  runUnmountFn (getApp w a).unmountFn a w

/-- src/create-router.ts, createRouter: construct the router, override
its install slot, then install the given plugins in list order. -/
def createRouter (plugins : List RouterPlugin) : World :=
  plugins.foldl (fun w p => setupPlugin p w) (overrideRouterInstall World.init)

/-- src/with-install.ts, withInstall: if the plugin object already
carries the WITH_INSTALL tag, return it unchanged; otherwise mutate it
in place (same `ref`), attaching the tag and the dual-mode install
method. -/
def withInstall (p : RouterPlugin) : RouterPlugin :=
  if p.withInstallTag then p
  else { p with withInstallTag := true, install := some InstallImpl.dualMode }

/-- src/as-vue-plugin.ts, asVuePlugin: mutate the plugin object in
place (same `ref`), attaching the app-only install method; no tag is
set and no tag is checked. -/
def asVuePlugin (p : RouterPlugin) : RouterPlugin :=
  { p with install := some InstallImpl.appOnly }

/-- The error message thrown by the app-handle install path. -/
def installMsg : String :=
  "[vue-router-plugin-system] Please install vue-router first."

/-- The app-handle install path shared by the else-branch of the
dual-mode install (src/with-install.ts) and by asVuePlugin
(src/as-vue-plugin.ts): look up the router on the app; if none is
registered, throw (returning the untouched world beside the error);
otherwise run prepareInstall and then the installer. -/
def installOnApp (p : RouterPlugin) (a : Nat) (w : World) :
    Option String × World :=
  if (getApp w a).hasRouter then
    (none, setupPlugin p (prepareInstall a w))
  else
    (some installMsg, w)

/-- The router branch of the dual-mode install method of
src/with-install.ts: ensure the override, then run the installer. -/
def installOnRouter (p : RouterPlugin) (w : World) : World :=
  setupPlugin p (overrideRouterInstall w)

/-- The runWithApp handler ids registered by a list of actions, in
order. -/
def runWithAppIdsActs (acts : List PluginAction) : List Nat :=
  acts.filterMap fun act =>
    match act with
    | PluginAction.runWithApp h => some h
    | _ => none

/-- The uninstall handler ids registered by a list of actions, in
order. -/
def uninstallIdsActs (acts : List PluginAction) : List Nat :=
  acts.filterMap fun act =>
    match act with
    | PluginAction.onUninstall h => some h
    | _ => none

/-- An example plugin whose body schedules one runWithApp callback. -/
def exA : RouterPlugin := ⟨1, [PluginAction.runWithApp 7], false, none⟩

/-- An example plugin whose body registers one uninstall callback. -/
def exB : RouterPlugin := ⟨2, [PluginAction.onUninstall 9], false, none⟩

/-- An example world: a router created with plugins exA and exB and
then attached to app 1. -/
def exW : World := callInstall 1 (createRouter [exA, exB])

/- Helper lemmas. -/

theorem lookupApp_updApps_self (l : List (Nat × AppRec)) (a : Nat) (r : AppRec) :
    lookupApp (updApps l a r) a = some r := by
  induction l with
  | nil => simp [updApps, lookupApp]
  | cons kv rest ih =>
    obtain ⟨k, v⟩ := kv
    by_cases hk : k = a
    · simp [updApps, lookupApp, hk]
    · simp [updApps, lookupApp, hk, ih]

theorem foldl_runAction_none (acts : List PluginAction) (w : World)
    (hw : w.internals.app = none) :
    acts.foldl runAction w =
      { w with internals :=
          { w.internals with
            uninstallHandlers :=
              w.internals.uninstallHandlers ++ uninstallIdsActs acts,
            runWithAppHandlers :=
              w.internals.runWithAppHandlers ++ runWithAppIdsActs acts } } := by
  induction acts generalizing w with
  | nil => simp [uninstallIdsActs, runWithAppIdsActs]
  | cons act rest ih =>
    cases act with
    | runWithApp h =>
      rw [List.foldl_cons]
      have h1 : runAction w (PluginAction.runWithApp h) =
          { w with internals :=
              { w.internals with
                runWithAppHandlers := w.internals.runWithAppHandlers ++ [h] } } := by
        simp [runAction, hw]
      rw [h1, ih _ (by simpa using hw)]
      simp [uninstallIdsActs, runWithAppIdsActs, List.filterMap_cons,
        List.append_assoc]
    | onUninstall h =>
      rw [List.foldl_cons]
      have h1 : runAction w (PluginAction.onUninstall h) =
          { w with internals :=
              { w.internals with
                uninstallHandlers := w.internals.uninstallHandlers ++ [h] } } := by
        simp [runAction]
      rw [h1, ih _ (by simpa using hw)]
      simp [uninstallIdsActs, runWithAppIdsActs, List.filterMap_cons,
        List.append_assoc]

theorem setupPlugin_none (p : RouterPlugin) (w : World)
    (hw : w.internals.app = none) :
    setupPlugin p w =
      { w with
        internals :=
          { w.internals with
            uninstallHandlers :=
              w.internals.uninstallHandlers ++ uninstallIdsActs p.actions,
            runWithAppHandlers :=
              w.internals.runWithAppHandlers ++ runWithAppIdsActs p.actions },
        trace := w.trace ++ [Event.pluginBody p.ref] } := by
  unfold setupPlugin
  rw [foldl_runAction_none _ _ (by simpa using hw)]

theorem foldl_setupPlugin_none (ps : List RouterPlugin) (w : World)
    (hw : w.internals.app = none) :
    ps.foldl (fun w2 p => setupPlugin p w2) w =
      { w with
        internals :=
          { w.internals with
            uninstallHandlers := w.internals.uninstallHandlers ++
              (ps.map fun p => uninstallIdsActs p.actions).flatten,
            runWithAppHandlers := w.internals.runWithAppHandlers ++
              (ps.map fun p => runWithAppIdsActs p.actions).flatten },
        trace := w.trace ++ (ps.map fun p => Event.pluginBody p.ref) } := by
  induction ps generalizing w with
  | nil => simp
  | cons p rest ih =>
    rw [List.foldl_cons, setupPlugin_none _ _ hw, ih _ (by simpa using hw)]
    simp [List.append_assoc]

theorem createRouter_spec (ps : List RouterPlugin) :
    createRouter ps =
      { internals :=
          { isInstallOverridden := true, isPrepared := false, app := none,
            scopeStopped := false,
            uninstallHandlers := (ps.map fun p => uninstallIdsActs p.actions).flatten,
            runWithAppHandlers := (ps.map fun p => runWithAppIdsActs p.actions).flatten },
        installFn := InstallFn.wrapped InstallFn.native,
        apps := [],
        trace := ps.map fun p => Event.pluginBody p.ref } := by
  have h0 : overrideRouterInstall World.init =
      ⟨⟨true, false, none, false, [], []⟩,
        InstallFn.wrapped InstallFn.native, [], []⟩ := by rfl
  unfold createRouter
  rw [h0, foldl_setupPlugin_none _ _ rfl]
  simp

theorem callInstall_first_eq (w : World) (a : Nat)
    (hp : w.internals.isPrepared = false)
    (hf : w.installFn = InstallFn.wrapped InstallFn.native) :
    callInstall a w =
      { internals :=
          { w.internals with
            isPrepared := true
            app := some a
            runWithAppHandlers := [] },
        installFn := w.installFn,
        apps := updApps
          (updApps w.apps a
            ⟨UnmountFn.wrapped (getApp w a).unmountFn, (getApp w a).hasRouter⟩) a
          ⟨UnmountFn.wrapped (getApp w a).unmountFn, true⟩,
        trace := w.trace ++
          [Event.recordApp a, Event.wrapUnmount a, Event.nativeInstall a] ++
          (w.internals.runWithAppHandlers.map fun h => Event.runHandler h a) } := by
  unfold callInstall
  rw [hf]
  simp only [runInstallFn, prepareInstall, hp, if_false, Bool.false_eq_true,
    nativeInstallStep, getApp, lookupApp_updApps_self, Option.getD_some]
  simp [List.append_assoc, hf]

theorem callInstall_prepared_eq (w : World) (a : Nat)
    (hp : w.internals.isPrepared = true)
    (hf : w.installFn = InstallFn.wrapped InstallFn.native) :
    callInstall a w =
      { internals := { w.internals with runWithAppHandlers := [] },
        installFn := w.installFn,
        apps := updApps w.apps a ⟨(getApp w a).unmountFn, true⟩,
        trace := w.trace ++ [Event.nativeInstall a] ++
          (w.internals.runWithAppHandlers.map fun h => Event.runHandler h a) } := by
  unfold callInstall
  rw [hf]
  have h1 : prepareInstall a w = w := by simp [prepareInstall, hp]
  simp only [runInstallFn, h1, nativeInstallStep]
  simp [List.append_assoc, hf]

theorem runUnmountFn_internals_app (u : UnmountFn) (a : Nat) (w : World) :
    (runUnmountFn u a w).internals.app = w.internals.app := by
  induction u generalizing w with
  | native => rfl
  | wrapped inner ih => simp [runUnmountFn, ih]

theorem overrideRouterInstall_idem (w : World) :
    overrideRouterInstall (overrideRouterInstall w) = overrideRouterInstall w := by
  by_cases hw : w.internals.isInstallOverridden <;>
    simp [overrideRouterInstall, hw]

theorem overrideRouterInstall_iterate (w : World) (n : Nat) :
    overrideRouterInstall^[n + 1] w = overrideRouterInstall w := by
  induction n with
  | zero => simp
  | succ n ih =>
    rw [Function.iterate_succ_apply', ih, overrideRouterInstall_idem]

theorem withInstall_idem (p : RouterPlugin) :
    withInstall (withInstall p) = withInstall p := by
  by_cases hp : p.withInstallTag <;> simp [withInstall, hp]

theorem withInstall_iterate (p : RouterPlugin) (n : Nat) :
    withInstall^[n + 1] p = withInstall p := by
  induction n with
  | zero => simp
  | succ n ih =>
    rw [Function.iterate_succ_apply', ih, withInstall_idem]

/-- Claim C1, counterexample: attaching the same router a second time,
to app 2 after app 1, does not re-run the whole attach sequence: the
new app handle is not recorded (the internals still hold app 1) and no
unmount interceptor is installed on app 2 — prepareInstall is guarded
by the isPrepared flag, so there is a guard against repeated
attachment. -/
theorem C1_counterexample :
    (callInstall 2 (callInstall 1 (createRouter [exA]))).internals.app = some 1 ∧
    Event.recordApp 2 ∉ (callInstall 2 (callInstall 1 (createRouter [exA]))).trace ∧
    Event.wrapUnmount 2 ∉ (callInstall 2 (callInstall 1 (createRouter [exA]))).trace := by
  decide

/-- Claim C1, amended: calling the wrapped attachment operation again
on an already-prepared router re-invokes the wrapper, which re-runs the
native attachment operation and re-flushes the (by then empty) queue,
but the prepare step is guarded by the isPrepared flag: the application
handle in the state record is unchanged and no new unmount interceptor
is installed on the app the second call was given. -/
theorem C1_second_attach_guarded (w : World) (a : Nat)
    (hp : w.internals.isPrepared = true)
    (hf : w.installFn = InstallFn.wrapped InstallFn.native) :
    (callInstall a w).trace = w.trace ++ [Event.nativeInstall a] ++
      (w.internals.runWithAppHandlers.map fun h => Event.runHandler h a) ∧
    (callInstall a w).internals.app = w.internals.app ∧
    (callInstall a w).internals.isPrepared = true ∧
    (getApp (callInstall a w) a).unmountFn = (getApp w a).unmountFn ∧
    (callInstall a w).internals.runWithAppHandlers = [] := by
  rw [callInstall_prepared_eq w a hp hf]
  refine ⟨rfl, rfl, hp, ?_, rfl⟩
  simp [getApp, lookupApp_updApps_self]

/-- Claim C1 witness: the amended theorem instantiated at the example
world exW (already attached to app 1) and a second app 2. -/
theorem C1_second_attach_guarded_witness :
    (exW.internals.isPrepared = true ∧
     exW.installFn = InstallFn.wrapped InstallFn.native) ∧
    ((callInstall 2 exW).trace = exW.trace ++ [Event.nativeInstall 2] ++
      (exW.internals.runWithAppHandlers.map fun h => Event.runHandler h 2) ∧
     (callInstall 2 exW).internals.app = exW.internals.app ∧
     (callInstall 2 exW).internals.isPrepared = true ∧
     (getApp (callInstall 2 exW) 2).unmountFn = (getApp exW 2).unmountFn ∧
     (callInstall 2 exW).internals.runWithAppHandlers = []) :=
  ⟨⟨by decide, by decide⟩,
    C1_second_attach_guarded exW 2 (by decide) (by decide)⟩

/-- Claim C2: when the wrapped unmount operation of an app carrying the
interceptor is invoked, it performs exactly this sequence: the shared
effect scope is stopped first, then every entry of the uninstall list
is invoked in registration order, then the list is cleared (the pending
runWithApp list is cleared alongside), and finally the native unmount
operation of the app runs. -/
theorem C2_unmount_sequence (w : World) (a : Nat)
    (hu : (getApp w a).unmountFn = UnmountFn.wrapped UnmountFn.native) :
    callUnmount a w =
      { w with
        internals :=
          { w.internals with
            scopeStopped := true
            uninstallHandlers := []
            runWithAppHandlers := [] },
        trace := w.trace ++ [Event.scopeStop] ++
          w.internals.uninstallHandlers.map Event.uninstall ++
          [Event.nativeUnmount a] } := by
  unfold callUnmount
  rw [hu]
  simp [runUnmountFn, List.append_assoc]

/-- Claim C2 witness: the theorem instantiated at the example world exW
(attached to app 1, with one registered uninstall handler). -/
theorem C2_unmount_sequence_witness :
    (getApp exW 1).unmountFn = UnmountFn.wrapped UnmountFn.native ∧
    callUnmount 1 exW =
      { exW with
        internals :=
          { exW.internals with
            scopeStopped := true
            uninstallHandlers := []
            runWithAppHandlers := [] },
        trace := exW.trace ++ [Event.scopeStop] ++
          exW.internals.uninstallHandlers.map Event.uninstall ++
          [Event.nativeUnmount 1] } :=
  ⟨by decide, C2_unmount_sequence exW 1 (by decide)⟩

/-- Claim C3: a runWithApp (runWithAppContext) call runs the wrapped
callback synchronously, at once, with the recorded app handle when the
router is attached, and otherwise appends it to the pending queue; and
for any plugin list installed at construction, attachment invokes all
queued callbacks, across all plugins, in exact registration order (the
flattening of the per-plugin registration sequences in install order),
leaving the queue empty. -/
theorem C3_schedule_with_context (w : World) (h : Nat)
    (ps : List RouterPlugin) (a : Nat) :
    runAction w (PluginAction.runWithApp h) =
      (match w.internals.app with
       | some a0 => { w with trace := w.trace ++ [Event.runHandler h a0] }
       | none =>
         { w with internals :=
             { w.internals with
               runWithAppHandlers := w.internals.runWithAppHandlers ++ [h] } }) ∧
    (callInstall a (createRouter ps)).internals.runWithAppHandlers = [] ∧
    (callInstall a (createRouter ps)).trace =
      (ps.map fun p => Event.pluginBody p.ref) ++
      [Event.recordApp a, Event.wrapUnmount a, Event.nativeInstall a] ++
      ((ps.map fun p => runWithAppIdsActs p.actions).flatten.map
        fun h2 => Event.runHandler h2 a) := by
  refine ⟨?_, ?_, ?_⟩
  · rcases hw : w.internals.app with _ | a0 <;> simp [runAction, hw]
  · rw [createRouter_spec, callInstall_first_eq _ a rfl rfl]
  · rw [createRouter_spec, callInstall_first_eq _ a rfl rfl]

/-- Claim C4, counterexample: on the first attachment the unmount
interceptor is installed (wrapUnmount) before the native attachment
operation and before the drain of the pending callbacks, not after the
drain: in the concrete trace the interceptor event precedes the
flushed-handler event. -/
theorem C4_counterexample :
    (callInstall 1 (createRouter [exA])).trace =
      [Event.pluginBody 1, Event.recordApp 1, Event.wrapUnmount 1,
       Event.nativeInstall 1, Event.runHandler 7 1] ∧
    (callInstall 1 (createRouter [exA])).trace.indexOf (Event.wrapUnmount 1) <
      (callInstall 1 (createRouter [exA])).trace.indexOf (Event.runHandler 7 1) := by
  decide

/-- Claim C4, amended: on its first invocation the wrapped attachment
operation records the application handle and installs the unmount
interceptor (the prepare step), then invokes the native attachment
operation, and then drains the pending context callbacks in order and
clears the queue; the interceptor is installed before the native
attach and before the drain. -/
theorem C4_first_attach_order (w : World) (a : Nat)
    (hp : w.internals.isPrepared = false)
    (hf : w.installFn = InstallFn.wrapped InstallFn.native) :
    (callInstall a w).trace = w.trace ++
      [Event.recordApp a, Event.wrapUnmount a, Event.nativeInstall a] ++
      (w.internals.runWithAppHandlers.map fun h => Event.runHandler h a) ∧
    (callInstall a w).internals.app = some a ∧
    (getApp (callInstall a w) a).unmountFn =
      UnmountFn.wrapped (getApp w a).unmountFn ∧
    (callInstall a w).internals.runWithAppHandlers = [] := by
  rw [callInstall_first_eq w a hp hf]
  refine ⟨rfl, rfl, ?_, rfl⟩
  simp [getApp, lookupApp_updApps_self]

/-- Claim C4 witness: the amended theorem instantiated at a freshly
constructed router with plugins exA and exB, attached to app 1. -/
theorem C4_first_attach_order_witness :
    ((createRouter [exA, exB]).internals.isPrepared = false ∧
     (createRouter [exA, exB]).installFn = InstallFn.wrapped InstallFn.native) ∧
    ((callInstall 1 (createRouter [exA, exB])).trace =
       (createRouter [exA, exB]).trace ++
       [Event.recordApp 1, Event.wrapUnmount 1, Event.nativeInstall 1] ++
       ((createRouter [exA, exB]).internals.runWithAppHandlers.map
         fun h => Event.runHandler h 1) ∧
     (callInstall 1 (createRouter [exA, exB])).internals.app = some 1 ∧
     (getApp (callInstall 1 (createRouter [exA, exB])) 1).unmountFn =
       UnmountFn.wrapped (getApp (createRouter [exA, exB]) 1).unmountFn ∧
     (callInstall 1 (createRouter [exA, exB])).internals.runWithAppHandlers = []) :=
  ⟨⟨by decide, by decide⟩,
    C4_first_attach_order (createRouter [exA, exB]) 1 (by decide) (by decide)⟩

/-- Claim C5, counterexample: after attaching to app 1 and then
unmounting through the interceptor (the scope stop and the native
unmount both appear in the trace), the application reference in the
state record is still app 1 — it is not cleared on unmount. -/
theorem C5_counterexample :
    (callUnmount 1 (callInstall 1 (createRouter [exB]))).internals.app = some 1 ∧
    Event.scopeStop ∈ (callUnmount 1 (callInstall 1 (createRouter [exB]))).trace ∧
    Event.nativeUnmount 1 ∈
      (callUnmount 1 (callInstall 1 (createRouter [exB]))).trace := by
  decide

/-- Claim C5, amended: the application reference in the state record is
set when the router becomes attached, but it is never cleared by the
unmount interceptor — unmounting leaves the recorded application
reference unchanged. -/
theorem C5_app_set_on_attach_never_cleared (w : World) (a : Nat)
    (w2 : World) (a2 : Nat)
    (hp : w.internals.isPrepared = false)
    (hf : w.installFn = InstallFn.wrapped InstallFn.native) :
    (callInstall a w).internals.app = some a ∧
    (callUnmount a2 w2).internals.app = w2.internals.app := by
  constructor
  · rw [callInstall_first_eq w a hp hf]
  · exact runUnmountFn_internals_app _ a2 w2

/-- Claim C5 witness: the amended theorem instantiated at a freshly
constructed router attached to app 1, and at the example world exW
unmounting app 1. -/
theorem C5_app_set_on_attach_never_cleared_witness :
    ((createRouter [exA]).internals.isPrepared = false ∧
     (createRouter [exA]).installFn = InstallFn.wrapped InstallFn.native) ∧
    ((callInstall 1 (createRouter [exA])).internals.app = some 1 ∧
     (callUnmount 1 exW).internals.app = exW.internals.app) :=
  ⟨⟨by decide, by decide⟩,
    C5_app_set_on_attach_never_cleared (createRouter [exA]) 1 exW 1
      (by decide) (by decide)⟩

/-- Claim C6: installing through the application-handle path when no
router is registered on that app raises the identifying error
synchronously and performs no partial installation: the world is
returned untouched, so in particular no uninstall callback and no
pending context callback has been registered. -/
theorem C6_app_path_requires_router (p : RouterPlugin) (a : Nat) (w : World)
    (hr : (getApp w a).hasRouter = false) :
    installOnApp p a w = (some installMsg, w) ∧
    (installOnApp p a w).2.internals.uninstallHandlers =
      w.internals.uninstallHandlers ∧
    (installOnApp p a w).2.internals.runWithAppHandlers =
      w.internals.runWithAppHandlers := by
  have h1 : installOnApp p a w = (some installMsg, w) := by
    simp [installOnApp, hr]
  exact ⟨h1, by rw [h1], by rw [h1]⟩

/-- Claim C6 witness: the theorem instantiated at plugin exA and app 3
on the initial world, where no router is registered on the app. -/
theorem C6_app_path_requires_router_witness :
    (getApp World.init 3).hasRouter = false ∧
    (installOnApp exA 3 World.init = (some installMsg, World.init) ∧
     (installOnApp exA 3 World.init).2.internals.uninstallHandlers =
       World.init.internals.uninstallHandlers ∧
     (installOnApp exA 3 World.init).2.internals.runWithAppHandlers =
       World.init.internals.runWithAppHandlers) :=
  ⟨by decide, C6_app_path_requires_router exA 3 World.init (by decide)⟩

/-- Claim C7: overrideRouterInstall is idempotent — any number of
invocations equals one invocation, after a call the override flag is
true, and the install slot is wrapped exactly when the flag was still
false (a call on an already-overridden router changes nothing). -/
theorem C7_override_wraps_once (w : World) (n : Nat) :
    overrideRouterInstall^[n + 1] w = overrideRouterInstall w ∧
    (overrideRouterInstall w).internals.isInstallOverridden = true ∧
    (overrideRouterInstall w).installFn =
      (if w.internals.isInstallOverridden then w.installFn
       else InstallFn.wrapped w.installFn) := by
  refine ⟨overrideRouterInstall_iterate w n, ?_, ?_⟩ <;>
    by_cases hw : w.internals.isInstallOverridden <;>
      simp [overrideRouterInstall, hw]

/-- Claim C8: applying withInstall to an already-wrapped plugin returns
the same wrapped value — double application equals single application,
and so does any positive number of applications. -/
theorem C8_withInstall_no_double_wrap (p : RouterPlugin) (n : Nat) :
    withInstall (withInstall p) = withInstall p ∧
    withInstall^[n + 1] p = withInstall p :=
  ⟨withInstall_idem p, withInstall_iterate p n⟩

/-- Claim C9: for any ordered plugin list, createRouter runs each
plugin body exactly once, in list order, before returning — the
construction trace is exactly the list of body events — and no
scheduled runWithApp callback runs during construction. -/
theorem C9_construction_runs_bodies_in_order (ps : List RouterPlugin) :
    (createRouter ps).trace = ps.map (fun p => Event.pluginBody p.ref) ∧
    ∀ h a, Event.runHandler h a ∉ (createRouter ps).trace := by
  have hs := createRouter_spec ps
  refine ⟨by rw [hs], ?_⟩
  intro h a hmem
  rw [hs] at hmem
  simp at hmem

/-- Claim C10, counterexample: asVuePlugin does not attach the wrapper
tag — after asVuePlugin the WITH_INSTALL marker is still false, while
withInstall does set it. -/
theorem C10_counterexample :
    (asVuePlugin ⟨0, [], false, none⟩).withInstallTag = false ∧
    (withInstall ⟨0, [], false, none⟩).withInstallTag = true := by
  decide

/-- Claim C10, amended: both withInstall and asVuePlugin return the
identical object (same identity, same body), mutated in place:
withInstall attaches the install method and the wrapper tag (when not
already tagged), while asVuePlugin attaches only its install method and
leaves the wrapper tag untouched. -/
theorem C10_in_place_wrapping (p : RouterPlugin) :
    (withInstall p).ref = p.ref ∧
    (withInstall p).actions = p.actions ∧
    (asVuePlugin p).ref = p.ref ∧
    (asVuePlugin p).actions = p.actions ∧
    (withInstall p).withInstallTag = true ∧
    (withInstall p).install =
      (if p.withInstallTag then p.install else some InstallImpl.dualMode) ∧
    (asVuePlugin p).install = some InstallImpl.appOnly ∧
    (asVuePlugin p).withInstallTag = p.withInstallTag := by
  by_cases hp : p.withInstallTag <;> simp [withInstall, asVuePlugin, hp]

end VueRouterPluginSystem
